import Mathlib

/-! WorkingPaperTool front end: the two pages as state machines

A shallow embedding of `src/frontend/src/pages/SearchPapers.jsx` and
`src/frontend/src/pages/ScrapePapers.jsx`.

* The first part models the fragment of JavaScript the two components rely on:
  number values, `parseInt`, `Number`, `ToString`, truthiness, `||`, `??`,
  property access on the parsed response and the value `JSON.stringify` puts on
  the wire.
* The second part models each component as a record of its `useState` cells and
  each handler as a function from the state at the click and the outcome of the
  `fetch` to the state after the handler has completed.

Modelling conventions.

* A finite number is kept as the exact decimal `m × 10^e` it denotes; rounding to
  IEEE doubles is not modelled and `-0` is identified with `0` (both print as `0`,
  both are falsy, both serialise as `0`).
* Strings are Lean strings (sequences of Unicode scalar values).
* A handler runs from the click to the completion of its request without any
  other event of the page being handled in between.
-/

namespace WorkingPaperTool

/-! ## JavaScript numbers -/

/-- A JavaScript number: `NaN`, an infinity, or the finite decimal `m × 10^e`. -/
inductive JSNum where
  | nan
  | inf (neg : Bool)
  | fin (m : Int) (e : Int)
  deriving DecidableEq

namespace JSNum

/-- The number denoted by an integer literal such as `5`. -/
def ofInt (i : Int) : JSNum := .fin i 0

/-- The number is a mathematical integer (`Number.isInteger`). -/
def isInteger : JSNum → Bool
  | .nan => false
  | .inf _ => false
  | .fin m e => if 0 ≤ e then true else decide (m % (10 ^ e.natAbs : Int) = 0)

/-- The number is strictly greater than zero. -/
def isPositive : JSNum → Bool
  | .nan => false
  | .inf neg => !neg
  | .fin m _ => decide (0 < m)

/-- The number is an integer greater than zero. -/
def isPositiveInteger (n : JSNum) : Bool := n.isInteger && n.isPositive

/-- Truthiness of a number: `NaN` and zero are falsy. -/
def truthy : JSNum → Bool
  | .nan => false
  | .inf _ => true
  | .fin m _ => decide (m ≠ 0)

/-- Strip the trailing decimal zeros of a positive mantissa, counting them. -/
def stripZeros : Nat → Nat → Nat × Nat
  | 0, m => (m, 0)
  | fuel + 1, m =>
    if m ≠ 0 ∧ m % 10 = 0 then
      let r := stripZeros fuel (m / 10)
      (r.1, r.2 + 1)
    else (m, 0)

/-- The decimal digits of a natural number, as characters. -/
def digitChars (n : Nat) : List Char := Nat.toDigits 10 n

/-- The ECMAScript `Number::toString` of a positive finite decimal `m × 10^e`
(radix 10): plain digits up to 21 integer digits, a decimal point for
fractions down to `1e-7`, exponent form beyond. -/
def posToString (m : Nat) (e : Int) : String :=
  let r := stripZeros m m
  let digits := digitChars r.1
  let k : Int := digits.length
  let n : Int := k + (e + r.2)
  if k ≤ n ∧ n ≤ 21 then
    String.mk (digits ++ List.replicate (n - k).toNat '0')
  else if 0 < n ∧ n ≤ 21 then
    String.mk (digits.take n.toNat ++ '.' :: digits.drop n.toNat)
  else if -6 < n ∧ n ≤ 0 then
    String.mk ('0' :: '.' :: List.replicate (-n).toNat '0' ++ digits)
  else
    let ex : Int := n - 1
    let exChars := (if ex < 0 then '-' else '+') :: digitChars ex.natAbs
    match digits with
    | [] => ""
    | [d] => String.mk (d :: 'e' :: exChars)
    | d :: rest => String.mk (d :: '.' :: rest ++ 'e' :: exChars)

/-- The ECMAScript `ToString` of a number. -/
def toString : JSNum → String
  | .nan => "NaN"
  | .inf false => "Infinity"
  | .inf true => "-Infinity"
  | .fin m e =>
    if m = 0 then "0"
    else if m < 0 then "-" ++ posToString m.natAbs e
    else posToString m.natAbs e

end JSNum

/-! ## Lexical helpers shared by `parseInt` and `Number` -/

/-- ECMAScript `WhiteSpace` and `LineTerminator` code points, the characters
trimmed by `parseInt` and `Number`. -/
def isJSWhiteSpace (c : Char) : Bool :=
  let n := c.toNat
  n = 0x09 || n = 0x0A || n = 0x0B || n = 0x0C || n = 0x0D || n = 0x20 ||
  n = 0xA0 || n = 0x1680 || (0x2000 ≤ n && n ≤ 0x200A) || n = 0x2028 ||
  n = 0x2029 || n = 0x202F || n = 0x205F || n = 0x3000 || n = 0xFEFF

/-- The value of a character as a digit of radix `R`, if it is one. -/
def radixDigit (R : Nat) (c : Char) : Option Nat :=
  let n := c.toNat
  let d : Option Nat :=
    if 48 ≤ n ∧ n ≤ 57 then some (n - 48)
    else if 97 ≤ n ∧ n ≤ 122 then some (n - 87)
    else if 65 ≤ n ∧ n ≤ 90 then some (n - 55)
    else none
  match d with
  | some v => if v < R then some v else none
  | none => none

/-- The longest prefix of radix-`R` digits, as digit values, and the rest. -/
def takeDigits (R : Nat) : List Char → List Nat × List Char
  | [] => ([], [])
  | c :: cs =>
    match radixDigit R c with
    | some v =>
      let r := takeDigits R cs
      (v :: r.1, r.2)
    | none => ([], c :: cs)

/-- The natural number written by a list of radix-`R` digit values. -/
def digitsValue (R : Nat) (ds : List Nat) : Nat :=
  ds.foldl (fun acc d => acc * R + d) 0

/-- The ECMAScript `parseInt(string)` with no radix argument, on the characters
of the string: skip leading white space, read a sign, switch to radix 16 after
`0x`/`0X`, read the longest run of digits; no digit gives `NaN`. -/
def parseIntChars (cs : List Char) : JSNum :=
  let s := cs.dropWhile isJSWhiteSpace
  let signed : Bool × List Char :=
    match s with
    | '-' :: r => (true, r)
    | '+' :: r => (false, r)
    | _ => (false, s)
  let based : Nat × List Char :=
    match signed.2 with
    | '0' :: 'x' :: r => (16, r)
    | '0' :: 'X' :: r => (16, r)
    | r => (10, r)
  let z := (takeDigits based.1 based.2).1
  if z = [] then .nan
  else
    let v : Int := digitsValue based.1 z
    .fin (if signed.1 then -v else v) 0

/-- The value of `Infinity` or a decimal literal without sign:
`digits [. digits] [exponent]` or `. digits [exponent]`. -/
def parseUnsignedDecimal (neg : Bool) (cs : List Char) : Option JSNum :=
  if cs = "Infinity".data then some (.inf neg)
  else
    let ip := takeDigits 10 cs
    let fp : List Nat × List Char :=
      match ip.2 with
      | '.' :: r => takeDigits 10 r
      | r => ([], r)
    if ip.1 = [] ∧ fp.1 = [] then none
    else
      let mant : Int := digitsValue 10 (ip.1 ++ fp.1)
      let m : Int := if neg then -mant else mant
      let scale : Int := -(fp.1.length : Int)
      match fp.2 with
      | [] => some (.fin m scale)
      | c :: r =>
        if c = 'e' ∨ c = 'E' then
          let sg : Bool × List Char :=
            match r with
            | '-' :: t => (true, t)
            | '+' :: t => (false, t)
            | t => (false, t)
          let ep := takeDigits 10 sg.2
          if ep.1 = [] ∨ ep.2 ≠ [] then none
          else
            let ev : Int := digitsValue 10 ep.1
            some (.fin m (scale + (if sg.1 then -ev else ev)))
        else none

/-- A non-decimal integer literal body: a non-empty run of radix-`R` digits and
nothing else. -/
def parseRadixLiteral (R : Nat) (cs : List Char) : Option JSNum :=
  let d := takeDigits R cs
  if d.1 = [] ∨ d.2 ≠ [] then none else some (.fin (digitsValue R d.1) 0)

/-- The ECMAScript `StrNumericLiteral` grammar on trimmed, non-empty text. -/
def parseStrNumericLiteral (cs : List Char) : Option JSNum :=
  match cs with
  | '0' :: 'x' :: r => parseRadixLiteral 16 r
  | '0' :: 'X' :: r => parseRadixLiteral 16 r
  | '0' :: 'o' :: r => parseRadixLiteral 8 r
  | '0' :: 'O' :: r => parseRadixLiteral 8 r
  | '0' :: 'b' :: r => parseRadixLiteral 2 r
  | '0' :: 'B' :: r => parseRadixLiteral 2 r
  | '-' :: r => parseUnsignedDecimal true r
  | '+' :: r => parseUnsignedDecimal false r
  | r => parseUnsignedDecimal false r

/-- Remove the white space at both ends. -/
def trimJS (cs : List Char) : List Char :=
  ((cs.dropWhile isJSWhiteSpace).reverse.dropWhile isJSWhiteSpace).reverse

/-- The ECMAScript `Number(text)` on a string (`StringToNumber`): text that is
empty or only white space is `0`, a numeric literal is its value, anything else
is `NaN`. -/
def Number (text : String) : JSNum :=
  let cs := trimJS text.data
  if cs = [] then .fin 0 0
  else
    match parseStrNumericLiteral cs with
    | some n => n
    | none => .nan

/-! ## JavaScript values -/

/-- A JavaScript value as the components meet it: a primitive, or an array or
plain object produced by `JSON.parse` or by an object literal. -/
inductive JSVal where
  | undefined
  | null
  | bool (b : Bool)
  | num (n : JSNum)
  | str (s : String)
  | arr (items : List JSVal)
  | obj (fields : List (String × JSVal))

namespace JSVal

/-- The `ToBoolean` conversion: `undefined`, `null`, `false`, `NaN`, `0` and
the empty string are falsy. -/
def truthy : JSVal → Bool
  | .undefined => false
  | .null => false
  | .bool b => b
  | .num n => n.truthy
  | .str s => decide (s ≠ "")
  | .arr _ => true
  | .obj _ => true

/-- The `typeof` operator. -/
def typeof : JSVal → String
  | .undefined => "undefined"
  | .null => "object"
  | .bool _ => "boolean"
  | .num _ => "number"
  | .str _ => "string"
  | .arr _ => "object"
  | .obj _ => "object"

/-- The value is `null` or `undefined`. -/
def isNullish : JSVal → Bool
  | .undefined => true
  | .null => true
  | _ => false

/-- The operator `a || b`. -/
def or (a b : JSVal) : JSVal := if a.truthy then a else b

/-- The operator `a ?? b`. -/
def coalesce (a b : JSVal) : JSVal := if a.isNullish then b else a

/-- The own property `key` of an object given by its fields; when a key occurs
more than once the last occurrence is the property, as in `JSON.parse`. -/
def lookupField (key : String) (fields : List (String × JSVal)) : Option JSVal :=
  fields.reverse.lookup key

/-- The property access `v.key` for the property names the components read
(`embeddings_shape`, `model`, `error`, `stdout`, `stderr`, `success`), none of
which is `length` or a member of a prototype. The result `none` is the
`TypeError` thrown when `v` is `null` or `undefined`. -/
def getProp (v : JSVal) (key : String) : Option JSVal :=
  match v with
  | .undefined => none
  | .null => none
  | .obj fields => some ((lookupField key fields).getD .undefined)
  | _ => some .undefined

/-- The optional element access `v?.[i]`: `undefined` when `v` is nullish,
else the element `i` of an array, the character `i` of a string, the property
named `i` of an object. -/
def optIndex (v : JSVal) (i : Nat) : JSVal :=
  match v with
  | .arr items => items.getD i .undefined
  | .str s =>
    match s.data.get? i with
    | some c => .str (String.mk [c])
    | none => .undefined
  | .obj fields => (lookupField (Nat.repr i) fields).getD .undefined
  | _ => .undefined

mutual
/-- The `ToString` conversion, as used by template literals and by `+` with a
string operand. The result `none` is the `TypeError` thrown for an object whose
own property `toString` (never callable in parsed JSON) hides the inherited
one. Arrays are joined with commas, `null` and `undefined` elements render as
the empty string. -/
def toStr : JSVal → Option String
  | .undefined => some "undefined"
  | .null => some "null"
  | .bool b => some (if b then "true" else "false")
  | .num n => some n.toString
  | .str s => some s
  | .arr items => joinItems items
  | .obj fields => if (fields.map Prod.fst).contains "toString" then none else some "[object Object]"
termination_by structural v => v
/-- The body of `Array.prototype.join` with the separator `,`. -/
def joinItems : List JSVal → Option String
  | [] => some ""
  | x :: rest =>
    let head : Option String :=
      match x with
      | .undefined => some ""
      | .null => some ""
      | v => toStr v
    match head, rest with
    | none, _ => none
    | some h, [] => some h
    | some h, _ =>
      match joinItems rest with
      | none => none
      | some t => some (h ++ "," ++ t)
termination_by structural l => l
end

/-- The number `JSON.stringify` writes: `NaN` and the infinities become `null`. -/
def wireNum : JSNum → JSVal
  | .fin m e => .num (.fin m e)
  | _ => .null

mutual
/-- The value a receiver reads back from `JSON.stringify(v)`; `none` when
`JSON.stringify` yields `undefined` (nothing is written). -/
def wire : JSVal → Option JSVal
  | .undefined => none
  | .null => some .null
  | .bool b => some (.bool b)
  | .num n => some (wireNum n)
  | .str s => some (.str s)
  | .arr items => some (.arr (wireItems items))
  | .obj fields => some (.obj (wireFields fields))
termination_by structural v => v
/-- Array elements on the wire: an `undefined` element is written as `null`. -/
def wireItems : List JSVal → List JSVal
  | [] => []
  | x :: rest => (wire x).getD .null :: wireItems rest
termination_by structural l => l
/-- Object fields on the wire: a field whose value is `undefined` is left out. -/
def wireFields : List (String × JSVal) → List (String × JSVal)
  | [] => []
  | (k, x) :: rest =>
    match wire x with
    | some w => (k, w) :: wireFields rest
    | none => wireFields rest
termination_by structural l => l
end

end JSVal

/-- The outcome of `await fetch(...)` followed by `await res.json()`: either
one of the two promises rejected, or a response arrived with its `ok` flag and
its parsed JSON body. -/
inductive FetchOutcome where
  | threw
  | responded (ok : Bool) (data : JSVal)

/-- The arguments of a `fetch` call that posts JSON; `body` is the value handed
to `JSON.stringify`. -/
structure Request where
  url : String
  method : String
  body : JSVal

/-- The JSON value the server receives as the body of a request. -/
def Request.wireBody (r : Request) : Option JSVal := r.body.wire

/-! ## `SearchPapers.jsx` -/

/-- What the `topK` cell can hold: the number given to `useState` (line 11) or
the text delivered by the input's `onChange` (line 149). -/
inductive FieldValue where
  | num (n : JSNum)
  | text (s : String)

/-- The `ToString` of the content of the `topK` cell. -/
def FieldValue.toString : FieldValue → String
  | .num n => n.toString
  | .text s => s

/-- The call `parseInt(topK)`: `parseInt` first converts its argument to a
string. -/
def parseInt (v : FieldValue) : JSNum := parseIntChars v.toString.data

/-- The object kept in `lastSearchSource`: `{ type: "query", value }` (line 73)
or `{ type: "paper", title, abstract }` (line 90). -/
inductive SearchSource where
  | query (value : String)
  | paper (title : JSVal) (abstract : JSVal)

/-- The `type` property of a search source. -/
def SearchSource.type : SearchSource → String
  | .query _ => "query"
  | .paper _ _ => "paper"

/-- The `useState` cells of `SearchPapers` (lines 6-15); `lastSearchSource` is
`none` for `null`. -/
structure SearchState where
  lastSearchSource : Option SearchSource
  query : String
  authors : String
  dateStart : String
  dateEnd : String
  topK : FieldValue
  results : JSVal
  loadError : JSVal
  searchError : JSVal
  infoMessage : String

/-- The state of `SearchPapers` at mount (lines 6-15). -/
def SearchState.init : SearchState where
  lastSearchSource := none
  query := ""
  authors := ""
  dateStart := ""
  dateEnd := ""
  topK := .num (.ofInt 5)
  results := .arr []
  loadError := .str ""
  searchError := .str ""
  infoMessage := ""

/-- The address of the search endpoint (lines 59 and 95). -/
def searchUrl : String := "http://localhost:5050/api/search"

/-- The `handleLoad` handler (lines 17-33). -/
def handleLoad (s : SearchState) (o : FetchOutcome) : SearchState :=
  let s1 := { s with loadError := .str "", infoMessage := "Loading data..." }
  match o with
  | .threw => { s1 with loadError := .str "Error connecting to server." }
  | .responded ok data =>
    if ok then
      let message : Option String := do
        let shape ← data.getProp "embeddings_shape"
        let rows ← ((shape.optIndex 0).coalesce (.str "?")).toStr
        let model ← data.getProp "model"
        let modelText ← model.toStr
        pure ("Loaded " ++ rows ++ " embeddings from model: " ++ modelText)
      match message with
      | some m => { s1 with infoMessage := m }
      | none => { s1 with loadError := .str "Error connecting to server." }
    else
      let s2 := { s1 with infoMessage := "" }
      match data.getProp "error" with
      | some err => { s2 with loadError := err.or (.str "Failed to load data.") }
      | none => { s2 with loadError := .str "Error connecting to server." }

/-- The `handleRecompute` handler (lines 35-53). -/
def handleRecompute (s : SearchState) (o : FetchOutcome) : SearchState :=
  let s1 := { s with infoMessage := "Recomputing embeddings...", searchError := .str "" }
  match o with
  | .threw => { s1 with searchError := .str "Error connecting to server." }
  | .responded ok data =>
    if ok then
      let message : Option String := do
        let shape ← data.getProp "embeddings_shape"
        let rows ← (shape.optIndex 0).toStr
        let model ← data.getProp "model"
        let modelText ← model.toStr
        pure ("Recomputed " ++ rows ++ " embeddings using model: " ++ modelText)
      match message with
      | some m => { s1 with infoMessage := m }
      | none => { s1 with searchError := .str "Error connecting to server." }
    else
      let s2 := { s1 with infoMessage := "" }
      match data.getProp "error" with
      | some err => { s2 with searchError := err.or (.str "Failed to recompute embeddings.") }
      | none => { s2 with searchError := .str "Error connecting to server." }

/-- The request `handleSearch` sends (lines 59-69). -/
def handleSearchRequest (s : SearchState) : Request where
  url := searchUrl
  method := "POST"
  body := .obj [
    ("query", .str s.query),
    ("authors", .str s.authors),
    ("date_start", (JSVal.str s.dateStart).or .null),
    ("date_end", (JSVal.str s.dateEnd).or .null),
    ("top_k", .num (parseInt s.topK))]

/-- The `handleSearch` handler (lines 55-85). -/
def handleSearch (s : SearchState) (o : FetchOutcome) : SearchState :=
  let s1 := { s with searchError := .str "", infoMessage := "Searching..." }
  match o with
  | .threw => { s1 with searchError := .str "Error connecting to server.", infoMessage := "" }
  | .responded ok data =>
    if ok then
      { s1 with results := data, lastSearchSource := some (.query s.query), infoMessage := "" }
    else
      { s1 with results := .arr [], searchError := .str "Search failed.", infoMessage := "" }

/-- The guard of `handleSimilarSearch` (line 88): the handler returns at once
when it holds. -/
def similarGuard (abstractText : JSVal) : Bool :=
  !abstractText.truthy || abstractText.typeof != "string"

/-- The request `handleSimilarSearch` sends (lines 95-105), `none` when the
guard of line 88 returns before any request. -/
def handleSimilarSearchRequest (s : SearchState) (_title abstractText : JSVal) :
    Option Request :=
  if similarGuard abstractText then none
  else some {
    url := searchUrl
    method := "POST"
    body := .obj [
      ("query", abstractText),
      ("authors", .str ""),
      ("date_start", .null),
      ("date_end", .null),
      ("top_k", .num (parseInt s.topK))] }

/-- The `handleSimilarSearch` handler (lines 87-118). -/
def handleSimilarSearch (s : SearchState) (title abstractText : JSVal)
    (o : FetchOutcome) : SearchState :=
  if similarGuard abstractText then s
  else
    let s1 := { s with
      lastSearchSource := some (.paper title abstractText)
      searchError := .str ""
      infoMessage := "Searching for similar papers..." }
    match o with
    | .threw => { s1 with searchError := .str "Server error while finding similar papers." }
    | .responded ok data =>
      if ok then { s1 with results := data, infoMessage := "Found similar papers." }
      else { s1 with results := .arr [], searchError := .str "Failed to find similar papers." }

/-- The test `results.length === 0` of line 176: the length of an array or
string, the own property `length` of an object. For `null` and `undefined`,
where the access throws while rendering, the answer given is `false`. -/
def resultsEmpty : JSVal → Bool
  | .arr items => items.isEmpty
  | .str s => decide (s = "")
  | .obj fields =>
    match JSVal.lookupField "length" fields with
    | some (.num (.fin m _)) => decide (m = 0)
    | _ => false
  | _ => false

/-- What can happen on the search page: typing in a form field, a click on
*Search*, a click on *More Like This* of a shown result. -/
inductive SearchEvent where
  | queryInput (text : String)
  | authorsInput (text : String)
  | dateStartInput (text : String)
  | dateEndInput (text : String)
  | topKInput (text : String)
  | search (o : FetchOutcome)
  | similar (title abstractText : JSVal) (o : FetchOutcome)

/-- The search page together with a history variable: `shown` is the request
whose response data the last `setResults(data)` stored in `results`, and is
`none` after `setResults([])` and before any search. -/
structure SearchTrace where
  page : SearchState
  shown : Option Request

/-- The search page at mount. -/
def SearchTrace.init : SearchTrace where
  page := SearchState.init
  shown := none

/-- The history variable after a handler that sent `req` and met outcome `o`. -/
def shownAfter (before : Option Request) (req : Request) : FetchOutcome → Option Request
  | .threw => before
  | .responded true _ => some req
  | .responded false _ => none

/-- One event of the search page (input handlers of lines 137-149, the two
search handlers). -/
def SearchTrace.step (t : SearchTrace) : SearchEvent → SearchTrace
  | .queryInput text => { t with page := { t.page with query := text } }
  | .authorsInput text => { t with page := { t.page with authors := text } }
  | .dateStartInput text => { t with page := { t.page with dateStart := text } }
  | .dateEndInput text => { t with page := { t.page with dateEnd := text } }
  | .topKInput text => { t with page := { t.page with topK := .text text } }
  | .search o =>
    { page := handleSearch t.page o
      shown := shownAfter t.shown (handleSearchRequest t.page) o }
  | .similar title abstractText o =>
    match handleSimilarSearchRequest t.page title abstractText with
    | none => t
    | some req =>
      { page := handleSimilarSearch t.page title abstractText o
        shown := shownAfter t.shown req o }

/-- The search page after a sequence of events. -/
def SearchTrace.run (t : SearchTrace) (events : List SearchEvent) : SearchTrace :=
  events.foldl SearchTrace.step t

/-- The request `req` is the one the search source describes: its query text
is the `value` of a `"query"` source, the `abstract` of a `"paper"` source. -/
def SearchSource.describes (src : SearchSource) (req : Request) : Prop :=
  match src with
  | .query value => req.body.getProp "query" = some (.str value)
  | .paper _ abstractText => req.body.getProp "query" = some abstractText

/-- The header of lines 157-172 matches the list under it: when the results are
not empty they are the response to the request the search source describes. -/
def SearchTrace.headerMatches (t : SearchTrace) : Prop :=
  resultsEmpty t.page.results = false →
    ∃ src req, t.page.lastSearchSource = some src ∧ t.shown = some req ∧ src.describes req

/-! ## `ScrapePapers.jsx` -/

/-- The `useState` cells of `ScrapePapers` (lines 5-13). -/
structure ScrapeState where
  downloadFiles : Bool
  saveInterval : JSNum
  outputCsv : String
  tempCsv : String
  downloadDir : String
  retryAttempts : JSNum
  scrapeOutput : String
  scrapeError : JSVal

/-- The state of `ScrapePapers` at mount (lines 5-13). -/
def ScrapeState.init : ScrapeState where
  downloadFiles := false
  saveInterval := .ofInt 10
  outputCsv := "working_papers_complete.csv"
  tempCsv := "temp_output.csv"
  downloadDir := "downloads"
  retryAttempts := .ofInt 3
  scrapeOutput := ""
  scrapeError := .str ""

/-- The `onChange` of the save interval input (line 61). -/
def onSaveIntervalChange (s : ScrapeState) (text : String) : ScrapeState :=
  { s with saveInterval := Number text }

/-- The `onChange` of the output file input (line 70). -/
def onOutputCsvChange (s : ScrapeState) (text : String) : ScrapeState :=
  { s with outputCsv := text }

/-- The `onChange` of the temporary file input (line 79). -/
def onTempCsvChange (s : ScrapeState) (text : String) : ScrapeState :=
  { s with tempCsv := text }

/-- The `onChange` of the download directory input (line 88). -/
def onDownloadDirChange (s : ScrapeState) (text : String) : ScrapeState :=
  { s with downloadDir := text }

/-- The `onChange` of the retry attempts input (line 98). -/
def onRetryAttemptsChange (s : ScrapeState) (text : String) : ScrapeState :=
  { s with retryAttempts := Number text }

/-- The request `handleScrape` sends (lines 21-32). -/
def handleScrapeRequest (s : ScrapeState) : Request where
  url := "http://localhost:5050/api/scrape"
  method := "POST"
  body := .obj [
    ("download_files", .bool s.downloadFiles),
    ("save_interval", .num s.saveInterval),
    ("output_csv", .str s.outputCsv),
    ("temp_csv", .str s.tempCsv),
    ("download_dir", .str s.downloadDir),
    ("retry_attempts", .num s.retryAttempts)]

/-- The `handleScrape` handler (lines 15-45). -/
def handleScrape (s : ScrapeState) (o : FetchOutcome) : ScrapeState :=
  let s1 := { s with scrapeOutput := "", scrapeError := .str "" }
  let caught : ScrapeState → ScrapeState := fun st =>
    { st with scrapeError := .str "An error occurred while scraping." }
  match o with
  | .threw => caught s1
  | .responded ok data =>
    if ok then
      let output : Option String := do
        let stdout ← data.getProp "stdout"
        let stdoutText ← stdout.toStr
        let success ← data.getProp "success"
        pure (stdoutText ++ "\n" ++ (if success.truthy then "CSV found." else "CSV not found."))
      match output with
      | none => caught s1
      | some out =>
        let s2 := { s1 with scrapeOutput := out }
        match data.getProp "stderr" with
        | some stderr => { s2 with scrapeError := stderr }
        | none => caught s2
    else
      let s2 := { s1 with scrapeOutput := "" }
      match data.getProp "stderr" with
      | some stderr => { s2 with scrapeError := stderr.or (.str "Scrape failed.") }
      | none => caught s2

/-- What can happen on the scrape page: typing in one of the five inputs of the
form (lines 55-100), or submitting it. -/
inductive ScrapeEvent where
  | saveIntervalInput (text : String)
  | outputCsvInput (text : String)
  | tempCsvInput (text : String)
  | downloadDirInput (text : String)
  | retryAttemptsInput (text : String)
  | submit (o : FetchOutcome)

/-- One event of the scrape page. -/
def ScrapeState.step (s : ScrapeState) : ScrapeEvent → ScrapeState
  | .saveIntervalInput text => onSaveIntervalChange s text
  | .outputCsvInput text => onOutputCsvChange s text
  | .tempCsvInput text => onTempCsvChange s text
  | .downloadDirInput text => onDownloadDirChange s text
  | .retryAttemptsInput text => onRetryAttemptsChange s text
  | .submit o => handleScrape s o

/-- The scrape page after a sequence of events. -/
def ScrapeState.run (s : ScrapeState) (events : List ScrapeEvent) : ScrapeState :=
  events.foldl ScrapeState.step s

/-- The string ends with the given suffix. -/
def endsWith (s suffix : String) : Prop := suffix.data <:+ s.data

/-! ## Numerals admitted by `min="1"` -/

/-- A search result as the service returns it (spec §6, `POST /api/search`). -/
def samplePaper : JSVal :=
  .obj [
    ("Title", .str "Phillips curve"),
    ("Authors", .str "A. Author"),
    ("DatePublished", .str "2020-05-01"),
    ("Similarity", .num (.fin 9 (-1))),
    ("Link", .str "https://example.org/p1"),
    ("Abstract", .str "We study inflation.")]

/-- A 200 response of the scrape endpoint (spec §6, `POST /api/scrape`). -/
def sampleScrapeData (success : Bool) : JSVal :=
  .obj [("stdout", .str "Scraped 25 pages."), ("stderr", .str ""), ("success", .bool success)]

/-- A 200 response of the load and recompute endpoints (spec §6). -/
def sampleShapeData : JSVal :=
  .obj [
    ("embeddings_shape", .arr [.num (.ofInt 1234), .num (.ofInt 384)]),
    ("model", .str "all-MiniLM-L6-v2")]

/-! ## Lemmas on the handlers -/

theorem getProp_obj (fields : List (String × JSVal)) (key : String) :
    (JSVal.obj fields).getProp key = some ((JSVal.lookupField key fields).getD .undefined) := rfl

theorem or_str (t : String) (b : JSVal) :
    (JSVal.str t).or b = if t = "" then b else .str t := by
  by_cases h : t = "" <;> simp [JSVal.or, JSVal.truthy, h]

theorem similarGuard_str (a : String) (h : a ≠ "") : similarGuard (.str a) = false := by
  simp [similarGuard, JSVal.truthy, JSVal.typeof, h]

theorem handleScrape_downloadFiles (s : ScrapeState) (o : FetchOutcome) :
    (handleScrape s o).downloadFiles = s.downloadFiles := by
  unfold handleScrape
  cases o with
  | threw => rfl
  | responded ok data =>
    cases ok
    · simp only [Bool.false_eq_true, if_false]
      split <;> rfl
    · simp only [if_true]
      split
      · rfl
      · split <;> rfl

theorem step_downloadFiles (s : ScrapeState) (e : ScrapeEvent) :
    (s.step e).downloadFiles = s.downloadFiles := by
  cases e <;> first | rfl | exact handleScrape_downloadFiles s _

theorem run_downloadFiles (events : List ScrapeEvent) (s : ScrapeState) :
    (s.run events).downloadFiles = s.downloadFiles := by
  induction events generalizing s with
  | nil => rfl
  | cons e rest ih =>
    show ((s.step e).run rest).downloadFiles = s.downloadFiles
    rw [ih, step_downloadFiles]

/-- C1: for every state of the search form, the body `handleSearch` posts to
`/api/search` has exactly the fields `query`, `authors`, `date_start`,
`date_end`, `top_k`, in the object given to `JSON.stringify` and on the wire:
`query` and `authors` are the form strings, each date is `null` when its form
string is empty and the form string otherwise, `top_k` is `parseInt(topK)`
(written as `null` by `JSON.stringify` when it is `NaN`). -/
theorem handleSearch_request_body (s : SearchState) :
    (handleSearchRequest s).url = "http://localhost:5050/api/search" ∧
    (handleSearchRequest s).body = .obj [
      ("query", .str s.query),
      ("authors", .str s.authors),
      ("date_start", if s.dateStart = "" then .null else .str s.dateStart),
      ("date_end", if s.dateEnd = "" then .null else .str s.dateEnd),
      ("top_k", .num (parseInt s.topK))] ∧
    (handleSearchRequest s).wireBody = some (.obj [
      ("query", .str s.query),
      ("authors", .str s.authors),
      ("date_start", if s.dateStart = "" then .null else .str s.dateStart),
      ("date_end", if s.dateEnd = "" then .null else .str s.dateEnd),
      ("top_k", JSVal.wireNum (parseInt s.topK))]) := by
  refine ⟨rfl, ?_, ?_⟩
  · simp only [handleSearchRequest, or_str]
  · simp only [Request.wireBody, handleSearchRequest, or_str]
    by_cases h1 : s.dateStart = "" <;> by_cases h2 : s.dateEnd = "" <;>
      simp [h1, h2, JSVal.wire, JSVal.wireFields]

/-- C2: for every non-empty string `abstractText` and every state of the search
form, `handleSimilarSearch(title, abstractText)` posts to `/api/search` a body
whose `query` is `abstractText`, whose `authors` is the empty string, whose
`date_start` and `date_end` are `null` and whose `top_k` is `parseInt(topK)`:
the authors and dates typed in the form are not sent. -/
theorem handleSimilarSearch_request_body (s : SearchState) (title : JSVal)
    (abstractText : String) (h : abstractText ≠ "") :
    ∃ req, handleSimilarSearchRequest s title (.str abstractText) = some req ∧
      req.url = "http://localhost:5050/api/search" ∧
      req.body = .obj [
        ("query", .str abstractText),
        ("authors", .str ""),
        ("date_start", .null),
        ("date_end", .null),
        ("top_k", .num (parseInt s.topK))] ∧
      req.wireBody = some (.obj [
        ("query", .str abstractText),
        ("authors", .str ""),
        ("date_start", .null),
        ("date_end", .null),
        ("top_k", JSVal.wireNum (parseInt s.topK))]) := by
  refine ⟨⟨searchUrl, "POST", .obj [
      ("query", .str abstractText), ("authors", .str ""), ("date_start", .null),
      ("date_end", .null), ("top_k", .num (parseInt s.topK))]⟩, ?_, rfl, rfl, ?_⟩
  · simp only [handleSimilarSearchRequest, similarGuard_str abstractText h]
    rfl
  · simp [Request.wireBody, JSVal.wire, JSVal.wireFields]

/-- Witness of C2: the form holds an author and two dates, the seed abstract is
`"Inflation dynamics"`. -/
theorem handleSimilarSearch_request_body_witness :
    ∃ req, handleSimilarSearchRequest
        { SearchState.init with authors := "Smith", dateStart := "2020-01-01",
                                dateEnd := "2021-01-01" }
        (.str "A paper") (.str "Inflation dynamics") = some req ∧
      req.url = "http://localhost:5050/api/search" ∧
      req.body = .obj [
        ("query", .str "Inflation dynamics"),
        ("authors", .str ""),
        ("date_start", .null),
        ("date_end", .null),
        ("top_k", .num (parseInt (.num (.ofInt 5))))] ∧
      req.wireBody = some (.obj [
        ("query", .str "Inflation dynamics"),
        ("authors", .str ""),
        ("date_start", .null),
        ("date_end", .null),
        ("top_k", JSVal.wireNum (parseInt (.num (.ofInt 5))))]) :=
  handleSimilarSearch_request_body _ (.str "A paper") "Inflation dynamics" (by decide)

/-- C3 (violated by the code): the *Number of Results* input carries `min="1"`
(line 149), yet `handleSearch` and `handleSimilarSearch` send `parseInt(topK)`
unchecked. From the initial state, after the field is cleared the `top_k` sent
is `NaN` (`null` on the wire); after `0` is typed it is `0`; after `-3` is
typed it is `-3`. None is a positive integer. -/
theorem top_k_not_positive_after_input :
    (handleSearchRequest (SearchTrace.init.run [.topKInput ""]).page).body.getProp "top_k"
      = some (.num .nan) ∧
    ((handleSearchRequest (SearchTrace.init.run [.topKInput ""]).page).wireBody.bind
      fun b => b.getProp "top_k") = some .null ∧
    (handleSearchRequest (SearchTrace.init.run [.topKInput "0"]).page).body.getProp "top_k"
      = some (.num (.fin 0 0)) ∧
    (handleSearchRequest (SearchTrace.init.run [.topKInput "-3"]).page).body.getProp "top_k"
      = some (.num (.fin (-3) 0)) ∧
    ((handleSimilarSearchRequest (SearchTrace.init.run [.topKInput ""]).page
        (.str "Phillips curve") (.str "We study inflation.")).bind
      fun r => r.body.getProp "top_k") = some (.num .nan) ∧
    ((handleSimilarSearchRequest (SearchTrace.init.run [.topKInput "0"]).page
        (.str "Phillips curve") (.str "We study inflation.")).bind
      fun r => r.body.getProp "top_k") = some (.num (.fin 0 0)) ∧
    JSNum.nan.isPositiveInteger = false ∧
    (JSNum.fin 0 0).isPositiveInteger = false ∧
    (JSNum.fin (-3) 0).isPositiveInteger = false := by
  refine ⟨rfl, rfl, rfl, rfl, rfl, rfl, rfl, rfl, rfl⟩

/-- C10: in every state of the scrape page reached from the initial state by
the input handlers and `handleScrape`, `downloadFiles` is `false`, and the
request `handleScrape` sends from that state has `download_files` equal to
`false`, in the object given to `JSON.stringify` and on the wire. -/
theorem download_files_always_false (events : List ScrapeEvent) :
    (ScrapeState.init.run events).downloadFiles = false ∧
    (handleScrapeRequest (ScrapeState.init.run events)).body.getProp "download_files"
      = some (.bool false) ∧
    ((handleScrapeRequest (ScrapeState.init.run events)).wireBody.bind
      fun b => b.getProp "download_files") = some (.bool false) := by
  have h : (ScrapeState.init.run events).downloadFiles = false :=
    run_downloadFiles events ScrapeState.init
  refine ⟨h, ?_, ?_⟩
  · simp [handleScrapeRequest, getProp_obj, JSVal.lookupField, List.lookup, h]
  · cases hs : (ScrapeState.init.run events).saveInterval <;>
      cases hr : (ScrapeState.init.run events).retryAttempts <;>
      simp [Request.wireBody, handleScrapeRequest, JSVal.wire, JSVal.wireFields,
        JSVal.wireNum, hs, hr, h, JSVal.getProp, JSVal.lookupField, List.lookup]

/-! ## The scrape report (C5, C8) -/

/-- C5: for every prior state and every 200 response whose `stdout` and
`stderr` are strings and whose `success` is a boolean, after `handleScrape` the
`scrapeOutput` is `stdout`, a newline, then `CSV found.` when `success` is true
and `CSV not found.` when it is false, and `scrapeError` is `stderr`; the
output ends with `CSV found.` exactly when `success` is true. -/
theorem handleScrape_ok_output (s : ScrapeState) (data : JSVal)
    (stdout stderr : String) (success : Bool)
    (hout : data.getProp "stdout" = some (.str stdout))
    (herr : data.getProp "stderr" = some (.str stderr))
    (hsuc : data.getProp "success" = some (.bool success)) :
    (handleScrape s (.responded true data)).scrapeOutput
      = stdout ++ "\n" ++ (if success then "CSV found." else "CSV not found.") ∧
    (handleScrape s (.responded true data)).scrapeError = .str stderr ∧
    (endsWith (handleScrape s (.responded true data)).scrapeOutput "CSV found."
      ↔ success = true) := by
  have hO : (handleScrape s (.responded true data)).scrapeOutput
      = stdout ++ "\n" ++ (if success then "CSV found." else "CSV not found.") := by
    simp [handleScrape, hout, herr, hsuc, JSVal.toStr, JSVal.truthy]
  have hE : (handleScrape s (.responded true data)).scrapeError = .str stderr := by
    simp [handleScrape, hout, herr, hsuc, JSVal.toStr, JSVal.truthy]
  refine ⟨hO, hE, ?_⟩
  rw [hO]
  cases success
  · simp only [Bool.false_eq_true, if_false, iff_false]
    intro h
    have h1 : "CSV found.".data <:+ (stdout ++ "\n").data ++ "CSV not found.".data := by
      simpa [endsWith] using h
    have h2 : "CSV found.".data <:+ "CSV not found.".data :=
      List.suffix_of_suffix_length_le h1 (List.suffix_append _ _) (by decide)
    exact absurd h2 (by decide)
  · simp only [if_true, iff_true]
    show "CSV found.".data <:+ (stdout ++ "\n" ++ "CSV found.").data
    rw [String.data_append]
    exact List.suffix_append _ _

/-- Witness of C5: a response reporting success and one reporting failure. -/
theorem handleScrape_ok_output_witness :
    ((handleScrape ScrapeState.init (.responded true (sampleScrapeData true))).scrapeOutput
        = "Scraped 25 pages." ++ "\n" ++ (if true then "CSV found." else "CSV not found.") ∧
      (handleScrape ScrapeState.init (.responded true (sampleScrapeData true))).scrapeError
        = .str "" ∧
      (endsWith
          (handleScrape ScrapeState.init (.responded true (sampleScrapeData true))).scrapeOutput
          "CSV found." ↔ true = true)) ∧
    (handleScrape ScrapeState.init (.responded true (sampleScrapeData false))).scrapeOutput
      = "Scraped 25 pages.\nCSV not found." :=
  ⟨handleScrape_ok_output ScrapeState.init (sampleScrapeData true) "Scraped 25 pages." "" true
    rfl rfl rfl, rfl⟩

/-- C7: for every prior state and every 200 response whose `embeddings_shape`
is the pair `[rows, dims]` of numbers and whose `model` is the string `m`,
`handleLoad` sets `infoMessage` to `Loaded <rows> embeddings from model: <m>`
and `handleRecompute` sets it to `Recomputed <rows> embeddings using model: <m>`,
where `<rows>` is the printed first component of the shape and `<m>` is the
model string unchanged. -/
theorem shape_message_reports_rows (s : SearchState) (data : JSVal)
    (rows dims : JSNum) (m : String)
    (hshape : data.getProp "embeddings_shape" = some (.arr [.num rows, .num dims]))
    (hmodel : data.getProp "model" = some (.str m)) :
    (handleLoad s (.responded true data)).infoMessage
      = "Loaded " ++ rows.toString ++ " embeddings from model: " ++ m ∧
    (handleRecompute s (.responded true data)).infoMessage
      = "Recomputed " ++ rows.toString ++ " embeddings using model: " ++ m := by
  constructor
  · simp [handleLoad, hshape, hmodel, JSVal.optIndex, JSVal.coalesce, JSVal.isNullish,
      JSVal.toStr, List.getD]
  · simp [handleRecompute, hshape, hmodel, JSVal.optIndex, JSVal.toStr, List.getD]

/-- Witness of C7: a shape of 1234 rows and 384 dimensions. -/
theorem shape_message_reports_rows_witness :
    ((handleLoad SearchState.init (.responded true sampleShapeData)).infoMessage
        = "Loaded " ++ (JSNum.ofInt 1234).toString ++ " embeddings from model: "
          ++ "all-MiniLM-L6-v2" ∧
      (handleRecompute SearchState.init (.responded true sampleShapeData)).infoMessage
        = "Recomputed " ++ (JSNum.ofInt 1234).toString ++ " embeddings using model: "
          ++ "all-MiniLM-L6-v2") ∧
    (handleLoad SearchState.init (.responded true sampleShapeData)).infoMessage
      = "Loaded 1234 embeddings from model: all-MiniLM-L6-v2" ∧
    (handleRecompute SearchState.init (.responded true sampleShapeData)).infoMessage
      = "Recomputed 1234 embeddings using model: all-MiniLM-L6-v2" :=
  ⟨shape_message_reports_rows SearchState.init sampleShapeData (.ofInt 1234) (.ofInt 384)
    "all-MiniLM-L6-v2" rfl rfl, rfl, rfl⟩

/-- C9 (violated by the code): `handleSimilarSearch` replaces `lastSearchSource`
before its request (line 90) and leaves `results` untouched when the request
throws (lines 114-117), whereas `handleSearch` replaces `lastSearchSource` only
together with `results` (lines 72-73). After the query `inflation` is answered
with one paper and *More Like This* on that paper fails to connect, the page
shows that paper under a header naming the paper as the source, although the
list is the response to the free-text query. -/
theorem header_mismatch_after_failed_similar :
    (SearchTrace.init.run [
        .queryInput "inflation",
        .search (.responded true (.arr [samplePaper])),
        .similar (.str "Phillips curve") (.str "We study inflation.") .threw]).page.results
      = .arr [samplePaper] ∧
    (SearchTrace.init.run [
        .queryInput "inflation",
        .search (.responded true (.arr [samplePaper])),
        .similar (.str "Phillips curve") (.str "We study inflation.") .threw]).page.lastSearchSource
      = some (.paper (.str "Phillips curve") (.str "We study inflation.")) ∧
    (SearchTrace.init.run [
        .queryInput "inflation",
        .search (.responded true (.arr [samplePaper])),
        .similar (.str "Phillips curve") (.str "We study inflation.") .threw]).shown
      = some (handleSearchRequest { SearchState.init with query := "inflation" }) ∧
    ¬ (SearchTrace.init.run [
        .queryInput "inflation",
        .search (.responded true (.arr [samplePaper])),
        .similar (.str "Phillips curve") (.str "We study inflation.") .threw]).headerMatches := by
  refine ⟨rfl, rfl, rfl, ?_⟩
  intro hm
  obtain ⟨src, req, hsrc, hreq, hdesc⟩ := hm rfl
  have hsrc2 : src = .paper (.str "Phillips curve") (.str "We study inflation.") :=
    (Option.some.inj hsrc).symm
  have hreq2 : req = handleSearchRequest { SearchState.init with query := "inflation" } :=
    (Option.some.inj hreq).symm
  subst hsrc2
  subst hreq2
  have hq : (handleSearchRequest { SearchState.init with query := "inflation" }).body.getProp
      "query" = some (.str "inflation") := rfl
  rw [SearchSource.describes, hq] at hdesc
  simp at hdesc

end WorkingPaperTool
